import Mathlib

/-!
Shallow embedding of the domain-state layer of the hostel-management
backend (Express/MySQL route handlers under `server/routes/`): room
occupancy assignment, QR/manual attendance recording, and the fee
ledger.  Relational tables are embedded as Lean lists of records, SQL
point updates as list maps, and each route handler as a function from
a database state (plus request inputs) to `Except ApiErr` of the new
state.  Dates and times of day are ISO-formatted strings, compared
lexicographically exactly as MySQL compares DATE/TIME values and as
JavaScript compares the strings the handlers build.
-/

namespace Hostel


/-- Requester role, from the `role` column / JWT payload. -/
inductive Role
  | admin
  | student
deriving DecidableEq, Repr

/-- Attendance status enum of the `attendance.status` column. -/
inductive AttStatus
  | present
  | absent
  | late
deriving DecidableEq, Repr

/-- Fee status enum of the `fees.status` column. -/
inductive FeeStatus
  | pending
  | paid
  | overdue
deriving DecidableEq, Repr

/-- Error taxonomy of the route layer: 404 → `notFound`, 403 →
`forbidden`, 400 validation failures → `invalidInput`, 400 business
conflicts (room full, already assigned, already paid, already marked,
duplicate email) → `conflict`. -/
inductive ApiErr
  | notFound
  | conflict
  | forbidden
  | invalidInput
deriving DecidableEq, Repr

/-- Lexicographic comparison of two strings, character by character:
how MySQL compares `DATE`/`TIME` values rendered as ISO strings and
how JavaScript compares the `"HH:MM:SS"` strings the handlers build
(`currentTime > '08:00:00'`). -/
def strLt (a b : String) : Bool := decide (a.data < b.data)

/-- JavaScript truthiness of a nullable string column / body field:
`undefined`/`null` and the empty string are falsy, every other string
is truthy (`if (room_no)`, `if (name)`, ...). -/
def jsTruthyS : Option String → Bool
  | none => false
  | some s => s != ""

/-- JavaScript truthiness of a nullable numeric field: absent and `0`
are falsy (`if (!parsedQrData.userId)`). -/
def jsTruthyN : Option Nat → Bool
  | none => false
  | some n => n != 0

/-- A row of the `users` table. -/
structure User where
  id : Nat
  name : String
  email : String
  password : String
  role : Role
  roomNo : Option String
  batch : Option String
  phone : Option String
  photo : Option String
  isActive : Bool
deriving DecidableEq, Repr

/-- A row of the `rooms` table.  The schema file (`config/database`)
is not part of the sources here; `occupied` is modelled from the spec:
`0 ≤ occupiedCount` with the decrement "floored at 0", i.e. a natural
number with truncated subtraction. -/
structure Room where
  id : Nat
  roomNo : String
  capacity : Nat
  occupied : Nat
  roomType : String
  floor : Nat
  isActive : Bool
deriving DecidableEq, Repr

/-- A row of the `attendance` table. -/
structure AttendanceRec where
  userId : Nat
  date : String
  status : AttStatus
  checkInTime : Option String
  checkOutTime : Option String
deriving DecidableEq, Repr

/-- A row of the `fees` table. -/
structure Fee where
  id : Nat
  userId : Nat
  amount : Int
  feeType : String
  dueDate : String
  status : FeeStatus
  paidDate : Option String
  receiptNo : Option String
deriving DecidableEq, Repr

/-- The relational state the route handlers read and write.
`nextUserId` models MySQL's `AUTO_INCREMENT` counter for `users`. -/
structure DB where
  users : List User
  rooms : List Room
  attendance : List AttendanceRec
  fees : List Fee
  nextUserId : Nat
deriving DecidableEq, Repr

/-! ## Occupancy operations (`server/routes/rooms.js`, `users.js`) -/

/-- `POST /rooms/:roomId/assign` (rooms.js lines 383-467): look up the
active room by id (404 if absent), reject with "Room is full" when
`occupied >= capacity`, look up the active student (404 if absent),
reject when the student already has a truthy `room_no`, then set the
student's `room_no` to the room's number and increment the room's
`occupied` by 1. -/
def assignRoom (db : DB) (roomId studentId : Nat) : Except ApiErr DB :=
  match db.rooms.find? (fun r => r.id == roomId && r.isActive) with
  | none => .error .notFound
  | some room =>
    if room.capacity ≤ room.occupied then
      .error .conflict
    else
      match db.users.find? (fun u =>
          u.id == studentId && u.role == .student && u.isActive) with
      | none => .error .notFound
      | some student =>
        if jsTruthyS student.roomNo then
          .error .conflict
        else
          .ok { db with
            users := db.users.map (fun u =>
              if u.id == studentId then { u with roomNo := some room.roomNo } else u),
            rooms := db.rooms.map (fun r =>
              if r.id == roomId then { r with occupied := r.occupied + 1 } else r) }

/-- `POST /rooms/:roomId/unassign` (rooms.js lines 470-536): look up
the room by id (404 if absent), reject with "Student is not assigned
to this room" when no user row matches `id = studentId AND room_no =
room.room_no`, then null the student's `room_no` and decrement the
room's `occupied` (the floor at 0 comes from the `occupied` column
being a natural, see `Room`). -/
def unassignRoom (db : DB) (roomId studentId : Nat) : Except ApiErr DB :=
  match db.rooms.find? (fun r => r.id == roomId) with
  | none => .error .notFound
  | some room =>
    match db.users.find? (fun u =>
        u.id == studentId && u.roomNo == some room.roomNo) with
    | none => .error .conflict
    | some _ =>
      .ok { db with
        users := db.users.map (fun u =>
          if u.id == studentId then { u with roomNo := none } else u),
        rooms := db.rooms.map (fun r =>
          if r.id == roomId then { r with occupied := r.occupied - 1 } else r) }

/-- Request body of `POST /users` (users.js).  `roomNo = none` stands
for an SQL `NULL` binding. -/
structure CreateBody where
  name : String
  email : String
  password : String
  role : Role
  roomNo : Option String := none
  batch : Option String := none
  phone : Option String := none
deriving Repr

/-- `POST /users` (users.js lines 128-199): validate (name non-empty,
email well formed — abstracted here to non-emptiness, no claim touches
the email format — password at least 6 characters), reject a duplicate
email, insert the user with the given `room_no`, and, when `room_no`
is truthy, increment `occupied` of every room whose `room_no` matches
— with no existence check and no capacity check. -/
def createUser (db : DB) (b : CreateBody) : Except ApiErr DB :=
  if b.name == "" || b.email == "" || b.password.length < 6 then
    .error .invalidInput
  else if db.users.any (fun u => u.email == b.email) then
    .error .conflict
  else
    let newUser : User :=
      { id := db.nextUserId, name := b.name, email := b.email,
        password := b.password, role := b.role, roomNo := b.roomNo,
        batch := b.batch, phone := b.phone, photo := none, isActive := true }
    let db1 := { db with
      users := db.users ++ [newUser], nextUserId := db.nextUserId + 1 }
    if jsTruthyS b.roomNo then
      .ok { db1 with rooms := db1.rooms.map (fun r =>
        if r.roomNo == b.roomNo.getD "" then { r with occupied := r.occupied + 1 } else r) }
    else
      .ok db1

/-- Request body of `PUT /users/:id`.  The outer `Option` is presence
of the field in the JSON body (`!== undefined`); for `roomNo` the
inner `Option String` is the bound value, `none` standing for JSON
`null`.  `photo` is the uploaded file's name (`req.file`). -/
structure UpdateBody where
  name : Option String := none
  email : Option String := none
  roomNo : Option (Option String) := none
  batch : Option String := none
  phone : Option String := none
  isActive : Option Bool := none
  photo : Option String := none
deriving Repr

/-- The single `UPDATE users SET ... WHERE id = ?` statement built by
`PUT /users/:id` (users.js lines 248-292): each field is written only
when its body value is truthy (for `room_no`: merely present; for
`is_active`: present and the requester is an admin). -/
def applyUserFields (u : User) (b : UpdateBody) (requesterRole : Role) : User :=
  let u1 := if jsTruthyS b.name then { u with name := b.name.getD "" } else u
  let u2 := if jsTruthyS b.email then { u1 with email := b.email.getD "" } else u1
  let u3 := match b.roomNo with
            | some v => { u2 with roomNo := v }
            | none => u2
  let u4 := if jsTruthyS b.batch then { u3 with batch := b.batch } else u3
  let u5 := if jsTruthyS b.phone then { u4 with phone := b.phone } else u4
  let u6 := match b.isActive, requesterRole with
            | some v, .admin => { u5 with isActive := v }
            | _, _ => u5
  match b.photo with
  | some fn => { u6 with photo := some fn }
  | none => u6

/-- `PUT /users/:id` (users.js lines 202-327): students may only
target themselves (403); 404 when the target row is absent; 400 when a
truthy new email is already taken by another row; 400 when no field is
updatable; otherwise run the field update, and then — only when the
requester is an admin and `room_no` was present in the body — adjust
occupancy: decrement every room matching the target's old truthy
`room_no`, increment every room matching the truthy new one.  No
capacity or room-existence check is performed anywhere on this path. -/
def updateUser (db : DB) (requesterId : Nat) (requesterRole : Role)
    (targetId : Nat) (b : UpdateBody) : Except ApiErr DB :=
  if requesterRole == .student && targetId != requesterId then
    .error .forbidden
  else
    match db.users.find? (fun u => u.id == targetId) with
    | none => .error .notFound
    | some currentUser =>
      let emailTaken :=
        match b.email with
        | some e => e != "" && e != currentUser.email &&
            db.users.any (fun u => u.email == e && u.id != targetId)
        | none => false
      if emailTaken then
        .error .conflict
      else
        let hasField := jsTruthyS b.name || jsTruthyS b.email || b.roomNo.isSome ||
          jsTruthyS b.batch || jsTruthyS b.phone ||
          (b.isActive.isSome && requesterRole == .admin) || b.photo.isSome
        if !hasField then
          .error .invalidInput
        else
          let db1 := { db with users := db.users.map (fun u =>
            if u.id == targetId then applyUserFields u b requesterRole else u) }
          if requesterRole == .admin && b.roomNo.isSome then
            let oldRoom := currentUser.roomNo
            let newRoom : Option String := b.roomNo.getD none
            let rooms1 :=
              if jsTruthyS oldRoom then
                db1.rooms.map (fun r =>
                  if r.roomNo == oldRoom.getD "" then { r with occupied := r.occupied - 1 } else r)
              else db1.rooms
            let rooms2 :=
              if jsTruthyS newRoom then
                rooms1.map (fun r =>
                  if r.roomNo == newRoom.getD "" then { r with occupied := r.occupied + 1 } else r)
              else rooms1
            .ok { db1 with rooms := rooms2 }
          else
            .ok db1

/-! ## Attendance operations (`server/routes/attendance.js`) -/

/-- Decoded QR payload `{userId, name, email, timestamp}`; each field
may be missing from a malformed JSON object. -/
structure QrData where
  userId : Option Nat := none
  name : Option String := none
  email : Option String := none
deriving Repr

/-- `POST /attendance/mark` (attendance.js): reject an unparseable
payload (`qr = none`) and a payload without truthy `userId`, `name`,
`email`; a student may only mark their own id (403); reject with
"Attendance already marked for today" when a record with the same
`(user_id, date)` exists; classify `late` exactly when the current
local time-of-day string exceeds `"08:00:00"`, else `present`; insert
the record and return the status. -/
def markAttendance (db : DB) (requesterId : Nat) (requesterRole : Role)
    (qr : Option QrData) (today currentTime : String) :
    Except ApiErr (DB × AttStatus) :=
  match qr with
  | none => .error .invalidInput
  | some q =>
    if !(jsTruthyN q.userId && jsTruthyS q.name && jsTruthyS q.email) then
      .error .invalidInput
    else
      let uid := q.userId.getD 0
      if requesterRole == .student && uid != requesterId then
        .error .forbidden
      else if db.attendance.any (fun a => a.userId == uid && a.date == today) then
        .error .conflict
      else
        let status := if strLt "08:00:00" currentTime then AttStatus.late else AttStatus.present
        .ok ({ db with attendance := db.attendance ++
          [{ userId := uid, date := today, status := status,
             checkInTime := some currentTime, checkOutTime := none }] }, status)

/-- `POST /attendance/manual` (attendance.js lines 548-592): admin
only (403 otherwise); reject with "Attendance already marked for this
date" when a record with the same `(user_id, date)` exists; otherwise
insert directly with the given status, bypassing classification. -/
def markManual (db : DB) (requesterRole : Role) (userId : Nat) (date : String)
    (status : AttStatus) (checkIn checkOut : Option String) : Except ApiErr DB :=
  if requesterRole != .admin then
    .error .forbidden
  else if db.attendance.any (fun a => a.userId == userId && a.date == date) then
    .error .conflict
  else
    .ok { db with attendance := db.attendance ++
      [{ userId := userId, date := date, status := status,
         checkInTime := checkIn, checkOutTime := checkOut }] }

/-- Result rows of `GET /attendance/stats/:userId`. -/
structure AttStats where
  totalDays : Nat
  presentDays : Nat
  absentDays : Nat
  lateDays : Nat
  attendancePercentage : ℚ
deriving DecidableEq, Repr

/-- The optional `date >= startDate AND date <= endDate` filter of the
stats query, on ISO date strings. -/
def inRange (d : String) (startDate endDate : Option String) : Bool :=
  (match startDate with | some s => !(strLt d s) | none => true) &&
  (match endDate with | some e => !(strLt e d) | none => true)

/-- JavaScript's `x.toFixed(2)` on the exact rational value: round to
the nearest hundredth, ties toward positive infinity. -/
def roundTo2 (q : ℚ) : ℚ := (Rat.floor (q * 100 + 1 / 2) : ℚ) / 100

/-- `GET /attendance/stats/:userId` (attendance.js lines 351-408):
count total/present/absent/late over the user's records in the date
range; `attendancePercentage` is `(present + late) / total * 100`
rounded to two decimals when `total > 0`, and the literal `0`
otherwise. -/
def attendanceStats (db : DB) (targetUserId : Nat)
    (startDate endDate : Option String) : AttStats :=
  let recs := db.attendance.filter (fun a =>
    a.userId == targetUserId && inRange a.date startDate endDate)
  let total := recs.length
  let present := (recs.filter (fun a => a.status == .present)).length
  let absent := (recs.filter (fun a => a.status == .absent)).length
  let late := (recs.filter (fun a => a.status == .late)).length
  { totalDays := total, presentDays := present, absentDays := absent,
    lateDays := late,
    attendancePercentage :=
      if 0 < total then roundTo2 (((present : ℚ) + (late : ℚ)) / (total : ℚ) * 100) else 0 }

/-! ## Fee operations (`server/routes/fees.js`) -/

/-- The row transformation of `PUT /fees/update-overdue`:
`UPDATE fees SET status = 'overdue' WHERE status = 'pending' AND
due_date < CURDATE()`. -/
def sweepFee (today : String) (f : Fee) : Fee :=
  if f.status == .pending && strLt f.dueDate today then { f with status := .overdue } else f

/-- `PUT /fees/update-overdue` (fees.js lines 622-644): the batch
sweep applying `sweepFee` to every fee row. -/
def sweepOverdue (db : DB) (today : String) : DB :=
  { db with fees := db.fees.map (sweepFee today) }

/-- `PUT /fees/:id/pay` (fees.js lines 377-422): 404 when no fee row
has the id; "Fee is already paid" when its status is `paid`; otherwise
set status to `paid`, `paid_date` to the request's `paidDate` when
truthy and to the current date otherwise, and `receipt_no` to the
request's `receiptNo`. -/
def markPaid (db : DB) (feeId : Nat) (paidDate receiptNo : Option String)
    (today : String) : Except ApiErr DB :=
  match db.fees.find? (fun f => f.id == feeId) with
  | none => .error .notFound
  | some fee =>
    if fee.status == .paid then
      .error .conflict
    else
      let newPaidDate := if jsTruthyS paidDate then paidDate.getD "" else today
      .ok { db with fees := db.fees.map (fun f =>
        if f.id == feeId then
          { f with status := FeeStatus.paid, paidDate := some newPaidDate,
                   receiptNo := receiptNo }
        else f) }

/-! ## Sequential executions of attendance marking (for the
one-record-per-user-per-day invariant) -/

/-- One inbound attendance-marking request, QR or manual. -/
inductive AttOp
  | qr (requesterId : Nat) (requesterRole : Role) (qrData : Option QrData)
      (today currentTime : String)
  | manual (requesterRole : Role) (userId : Nat) (date : String)
      (status : AttStatus) (checkIn checkOut : Option String)

/-- The state after handling one request: the new state on success,
the unchanged state when the handler rejected (an error response
writes nothing). -/
def applyAttOp (db : DB) : AttOp → DB
  | .qr rid rrole q d t =>
    match markAttendance db rid rrole q d t with
    | .ok (db', _) => db'
    | .error _ => db
  | .manual rrole uid d st ci co =>
    match markManual db rrole uid d st ci co with
    | .ok db' => db'
    | .error _ => db

/-- A sequential execution: requests handled one after the other. -/
def runAttOps (db : DB) (ops : List AttOp) : DB := ops.foldl applyAttOp db

/-- At most one attendance record per `(userId, date)` pair. -/
def attKeyDistinct (l : List AttendanceRec) : Prop :=
  l.Pairwise (fun a b => ¬(a.userId = b.userId ∧ a.date = b.date))

instance (l : List AttendanceRec) : Decidable (attKeyDistinct l) := by
  unfold attKeyDistinct
  exact List.instDecidablePairwise l

/-! ## Helper lemmas -/

/-! ## Claims -/

/-- A concrete student row used in witness states. -/
def mkStudentW (i : Nat) (em : String) (rn : Option String) : User :=
  { id := i, name := "S", email := em, password := "secret1", role := .student,
    roomNo := rn, batch := none, phone := none, photo := none, isActive := true }

/-- A concrete room row used in witness states. -/
def mkRoomW (i : Nat) (rn : String) (cap occ : Nat) : Room :=
  { id := i, roomNo := rn, capacity := cap, occupied := occ,
    roomType := "double", floor := 1, isActive := true }

/-- Witness state for C2: one student, one full room (capacity 2,
occupied 2). -/
def c2dbFull : DB :=
  { users := [mkStudentW 2 "s2@h.com" none], rooms := [mkRoomW 1 "R" 2 2],
    attendance := [], fees := [], nextUserId := 3 }

/-- Witness state for C2: one student, one room with a free slot. -/
def c2dbFree : DB :=
  { users := [mkStudentW 2 "s2@h.com" none], rooms := [mkRoomW 1 "R" 2 1],
    attendance := [], fees := [], nextUserId := 3 }

/-- Witness state for C7 conflict: the student's assignment is room
"B", not the targeted room "A". -/
def c7dbOther : DB :=
  { users := [mkStudentW 2 "s2@h.com" (some "B")], rooms := [mkRoomW 1 "A" 2 1],
    attendance := [], fees := [], nextUserId := 3 }

/-- Witness state for C7 success: the student is in room "A" with
`occupied = 1`. -/
def c7dbIn : DB :=
  { users := [mkStudentW 2 "s2@h.com" (some "A")], rooms := [mkRoomW 1 "A" 2 1],
    attendance := [], fees := [], nextUserId := 3 }

/-- Witness state for C7 floor: the student row still points at room
"A" while its counter is already 0 (reachable through the student
self-update path, which skips the occupancy adjustment). -/
def c7dbZero : DB :=
  { users := [mkStudentW 2 "s2@h.com" (some "A")], rooms := [mkRoomW 1 "A" 2 0],
    attendance := [], fees := [], nextUserId := 3 }

/-- Witness state for C9: a student with no assignment; the only room
is already full, and the room number written ("Z") does not even
exist. -/
def c9db : DB :=
  { users := [mkStudentW 2 "s2@h.com" none], rooms := [mkRoomW 1 "A" 2 2],
    attendance := [], fees := [], nextUserId := 3 }

/-- A concrete admin row used in witness states. -/
def mkAdminW : User :=
  { id := 1, name := "Adm", email := "admin@h.com", password := "secret1", role := .admin,
    roomNo := none, batch := none, phone := none, photo := none, isActive := true }

/-- Failing state for C1: student 2 lives in room "A" (capacity 2,
occupied 1); room "B" is full (capacity 1, occupied 1). -/
def c1db : DB :=
  { users := [mkAdminW, mkStudentW 2 "s2@h.com" (some "A")],
    rooms := [mkRoomW 1 "A" 2 1, mkRoomW 2 "B" 1 1],
    attendance := [], fees := [], nextUserId := 3 }

/-- Reachable start state for C10: only room "R" with capacity 1,
occupied 0, and no users yet. -/
def c10db0 : DB :=
  { users := [], rooms := [mkRoomW 1 "R" 1 0], attendance := [], fees := [], nextUserId := 10 }

/-- First create-user request for C10, into room "R". -/
def c10bodyA : CreateBody :=
  { name := "U1", email := "u1@h.com", password := "secret1", role := .student,
    roomNo := some "R" }

/-- Second create-user request for C10, into the now-full room "R". -/
def c10bodyB : CreateBody :=
  { name := "U2", email := "u2@h.com", password := "secret1", role := .student,
    roomNo := some "R" }

/-- QR payload used in the C4 witness. -/
def c4qr : QrData := { userId := some 2, name := some "S", email := some "s2@h.com" }

/-- Empty attendance state used in the C4 witness. -/
def c4db : DB := { users := [], rooms := [], attendance := [], fees := [], nextUserId := 1 }

/-- Existing-record state for the C3 witness: user 2 already has a
record for 2025-01-02. -/
def c3db : DB :=
  { users := [], rooms := [],
    attendance := [{ userId := 2, date := "2025-01-02", status := .present,
                     checkInTime := some "07:30:00", checkOutTime := none }],
    fees := [], nextUserId := 1 }

/-- QR payload used in the C3 witness. -/
def c3qr : QrData := { userId := some 2, name := some "S", email := some "s2@h.com" }

/-- Request sequence for the C3 witness: a duplicate QR mark (rejected),
then a manual mark for the next day (inserted). -/
def c3ops : List AttOp :=
  [.qr 2 .student (some c3qr) "2025-01-02" "08:30:00",
   .manual .admin 2 "2025-01-03" .present (some "07:45:00") none]

/-- Fee rows used in the C6 witness. -/
def mkFeeW (i : Nat) (st : FeeStatus) (due : String) : Fee :=
  { id := i, userId := 2, amount := 1500, feeType := "monthly", dueDate := due,
    status := st, paidDate := none, receiptNo := none }

/-- Fee-ledger state for the C6 witness: one overdue fee and one paid
fee. -/
def c6db : DB :=
  { users := [], rooms := [], attendance := [],
    fees := [mkFeeW 1 .overdue "2025-01-01", mkFeeW 2 .paid "2025-01-01"],
    nextUserId := 1 }

/-- Attendance rows of the C8 witness: user 2 has 8 `present` days
and 2 `late` days. -/
def c8recs : List AttendanceRec :=
  (List.range 8).map (fun i =>
    { userId := 2, date := "2025-01-0" ++ toString (i + 1), status := .present,
      checkInTime := some "07:00:00", checkOutTime := none }) ++
  [{ userId := 2, date := "2025-01-09", status := .late,
     checkInTime := some "09:00:00", checkOutTime := none },
   { userId := 2, date := "2025-01-10", status := .late,
     checkInTime := some "09:00:00", checkOutTime := none }]

/-- Attendance state of the C8 witness. -/
def c8db : DB :=
  { users := [], rooms := [], attendance := c8recs, fees := [], nextUserId := 1 }

/-! ## Theorems -/

/-- An SQL point update (a map that does not disturb the lookup
predicate) commutes with `find?`. -/
theorem find?_map_stable {α : Type} (p : α → Bool) (f : α → α)
    (hf : ∀ x, p (f x) = p x) (l : List α) :
    (l.map f).find? p = (l.find? p).map f := by
  induction l with
  | nil => rfl
  | cons a t ih =>
    simp only [List.map_cons]
    cases h : p a with
    | true =>
      rw [List.find?_cons_of_pos _ (by simp [hf a, h]),
        List.find?_cons_of_pos _ (by simp [h])]
      rfl
    | false =>
      rw [List.find?_cons_of_neg _ (by simp [hf a, h]),
        List.find?_cons_of_neg _ (by simp [h])]
      exact ih

/-- C2: for every active room and active student, `assign` fails with
`Conflict` when `occupied ≥ capacity`, fails with `Conflict` when the
student already has a (truthy) room assignment, and on success sets the
student's `room_no` to the room's number and increments the room's
`occupied` by exactly 1. -/
theorem c2_assign_room (db : DB) (roomId studentId : Nat) (room : Room)
    (hroom : db.rooms.find? (fun r => r.id == roomId && r.isActive) = some room) :
    (room.capacity ≤ room.occupied → assignRoom db roomId studentId = .error .conflict) ∧
    (∀ student : User, room.occupied < room.capacity →
      db.users.find? (fun u => u.id == studentId && u.role == .student && u.isActive)
        = some student →
      (jsTruthyS student.roomNo = true →
        assignRoom db roomId studentId = .error .conflict) ∧
      (jsTruthyS student.roomNo = false →
        ∃ db', assignRoom db roomId studentId = .ok db' ∧
          db'.users.find? (fun u => u.id == studentId && u.role == .student && u.isActive)
            = some { student with roomNo := some room.roomNo } ∧
          db'.rooms.find? (fun r => r.id == roomId && r.isActive)
            = some { room with occupied := room.occupied + 1 })) := by
  constructor
  · intro hfull
    unfold assignRoom
    rw [hroom]
    simp [hfull]
  · intro student hspace hstudent
    have hnotfull : ¬ (room.capacity ≤ room.occupied) := Nat.not_le.mpr hspace
    have hroomid : room.id = roomId := by
      have := List.find?_some hroom
      simp [Bool.and_eq_true] at this
      exact this.1
    have hstudid : student.id = studentId := by
      have := List.find?_some hstudent
      simp [Bool.and_eq_true] at this
      exact this.1.1
    constructor
    · intro htruthy
      unfold assignRoom
      rw [hroom, hstudent]
      simp [hnotfull, htruthy]
    · intro hfree
      have heq : assignRoom db roomId studentId = .ok { db with
          users := db.users.map (fun u =>
            if u.id == studentId then { u with roomNo := some room.roomNo } else u),
          rooms := db.rooms.map (fun r =>
            if r.id == roomId then { r with occupied := r.occupied + 1 } else r) } := by
        unfold assignRoom
        rw [hroom, hstudent]
        simp [hnotfull, hfree]
      refine ⟨_, heq, ?_, ?_⟩
      · rw [show ({ db with
            users := db.users.map (fun u =>
              if u.id == studentId then { u with roomNo := some room.roomNo } else u),
            rooms := db.rooms.map (fun r =>
              if r.id == roomId then { r with occupied := r.occupied + 1 } else r) } : DB).users
          = db.users.map (fun u =>
              if u.id == studentId then { u with roomNo := some room.roomNo } else u) from rfl]
        rw [find?_map_stable _ _ (fun u => by by_cases h : (u.id == studentId) = true <;> simp [h]),
          hstudent]
        simp [hstudid]
      · rw [show ({ db with
            users := db.users.map (fun u =>
              if u.id == studentId then { u with roomNo := some room.roomNo } else u),
            rooms := db.rooms.map (fun r =>
              if r.id == roomId then { r with occupied := r.occupied + 1 } else r) } : DB).rooms
          = db.rooms.map (fun r =>
              if r.id == roomId then { r with occupied := r.occupied + 1 } else r) from rfl]
        rw [find?_map_stable _ _ (fun r => by by_cases h : (r.id == roomId) = true <;> simp [h]),
          hroom]
        simp [hroomid]

/-- C2 witness: assigning into the full room is a `Conflict`; assigning
into the room with a free slot succeeds, writes the student's
`room_no` and increments `occupied` from 1 to 2. -/
theorem c2_assign_room_witness :
    assignRoom c2dbFull 1 2 = .error .conflict ∧
    (∃ db', assignRoom c2dbFree 1 2 = .ok db' ∧
      db'.users.find? (fun u => u.id == 2 && u.role == .student && u.isActive)
        = some { mkStudentW 2 "s2@h.com" none with roomNo := some "R" } ∧
      db'.rooms.find? (fun r => r.id == 1 && r.isActive)
        = some { mkRoomW 1 "R" 2 1 with occupied := 2 }) := by
  constructor
  · exact (c2_assign_room c2dbFull 1 2 (mkRoomW 1 "R" 2 2) (by rfl)).1 (by decide)
  · exact ((c2_assign_room c2dbFree 1 2 (mkRoomW 1 "R" 2 1)
      (by rfl)).2 (mkStudentW 2 "s2@h.com" none) (by decide) (by rfl)).2 (by rfl)

/-- C7: `unassign` fails with `Conflict` when no user row matches the
student id together with this room's number (the student's current
assignment is not this room); on success it nulls the student's
`room_no` and decrements the room's `occupied` by 1, floored at 0
(the floor is the spec-modelled storage behaviour, see `Room`). -/
theorem c7_unassign_room (db : DB) (roomId studentId : Nat) (room : Room)
    (hroom : db.rooms.find? (fun r => r.id == roomId) = some room) :
    (db.users.find? (fun u => u.id == studentId && u.roomNo == some room.roomNo) = none →
      unassignRoom db roomId studentId = .error .conflict) ∧
    (∀ student : User,
      db.users.find? (fun u => u.id == studentId && u.roomNo == some room.roomNo)
        = some student →
      ∃ db', unassignRoom db roomId studentId = .ok db' ∧
        db'.rooms.find? (fun r => r.id == roomId)
          = some { room with occupied := room.occupied - 1 } ∧
        (room.occupied = 0 →
          db'.rooms.find? (fun r => r.id == roomId) = some { room with occupied := 0 }) ∧
        (∀ u ∈ db'.users, u.id = studentId → u.roomNo = none)) := by
  have hroomid : room.id = roomId := by
    have := List.find?_some hroom
    simpa using this
  constructor
  · intro hnone
    unfold unassignRoom
    rw [hroom]
    simp [hnone]
  · intro student hstudent
    have heq : unassignRoom db roomId studentId = .ok { db with
        users := db.users.map (fun u =>
          if u.id == studentId then { u with roomNo := none } else u),
        rooms := db.rooms.map (fun r =>
          if r.id == roomId then { r with occupied := r.occupied - 1 } else r) } := by
      unfold unassignRoom
      rw [hroom]
      simp [hstudent]
    refine ⟨_, heq, ?_, ?_, ?_⟩
    · rw [show ({ db with
          users := db.users.map (fun u =>
            if u.id == studentId then { u with roomNo := none } else u),
          rooms := db.rooms.map (fun r =>
            if r.id == roomId then { r with occupied := r.occupied - 1 } else r) } : DB).rooms
        = db.rooms.map (fun r =>
            if r.id == roomId then { r with occupied := r.occupied - 1 } else r) from rfl]
      rw [find?_map_stable _ _ (fun r => by by_cases h : (r.id == roomId) = true <;> simp [h]),
        hroom]
      simp [hroomid]
    · intro hzero
      rw [show ({ db with
          users := db.users.map (fun u =>
            if u.id == studentId then { u with roomNo := none } else u),
          rooms := db.rooms.map (fun r =>
            if r.id == roomId then { r with occupied := r.occupied - 1 } else r) } : DB).rooms
        = db.rooms.map (fun r =>
            if r.id == roomId then { r with occupied := r.occupied - 1 } else r) from rfl]
      rw [find?_map_stable _ _ (fun r => by by_cases h : (r.id == roomId) = true <;> simp [h]),
        hroom]
      simp [hroomid, hzero]
    · intro u hu huid
      rw [show ({ db with
          users := db.users.map (fun u =>
            if u.id == studentId then { u with roomNo := none } else u),
          rooms := db.rooms.map (fun r =>
            if r.id == roomId then { r with occupied := r.occupied - 1 } else r) } : DB).users
        = db.users.map (fun u =>
            if u.id == studentId then { u with roomNo := none } else u) from rfl] at hu
      obtain ⟨v, hv, hvu⟩ := List.mem_map.mp hu
      by_cases hid : (v.id == studentId) = true
      · rw [if_pos hid] at hvu
        exact hvu ▸ rfl
      · rw [if_neg hid] at hvu
        subst hvu
        exact absurd (by simp [huid]) hid

/-- C7 witness: unassigning from a room the student is not in is a
`Conflict`; a normal unassign drops `occupied` from 1 to 0; and with
the counter already at 0 the decrement stays floored at 0. -/
theorem c7_unassign_room_witness :
    unassignRoom c7dbOther 1 2 = .error .conflict ∧
    (∃ db', unassignRoom c7dbIn 1 2 = .ok db' ∧
      db'.rooms.find? (fun r => r.id == 1) = some (mkRoomW 1 "A" 2 0) ∧
      (∀ u ∈ db'.users, u.id = 2 → u.roomNo = none)) ∧
    (∃ db', unassignRoom c7dbZero 1 2 = .ok db' ∧
      db'.rooms.find? (fun r => r.id == 1) = some (mkRoomW 1 "A" 2 0)) := by
  refine ⟨?_, ?_, ?_⟩
  · exact (c7_unassign_room c7dbOther 1 2 (mkRoomW 1 "A" 2 1) (by rfl)).1 (by rfl)
  · obtain ⟨db', h1, h2, _h3, h4⟩ := (c7_unassign_room c7dbIn 1 2 (mkRoomW 1 "A" 2 1)
      (by rfl)).2 (mkStudentW 2 "s2@h.com" (some "A")) (by rfl)
    exact ⟨db', h1, h2, h4⟩
  · obtain ⟨db', h1, _h2, h3, _h4⟩ := (c7_unassign_room c7dbZero 1 2 (mkRoomW 1 "A" 2 0)
      (by rfl)).2 (mkStudentW 2 "s2@h.com" (some "A")) (by rfl)
    exact ⟨db', h1, h3 rfl⟩

/-- C9: a student updating their own profile with a `room_no` value
gets the field written, while every room row — and the rest of the
state — is left unchanged: the occupancy adjustment runs only for
admin requesters, and no capacity or room-existence check is performed
on the new `room_no`. -/
theorem c9_student_self_update (db : DB) (uid : Nat) (rn : String) (user : User)
    (huser : db.users.find? (fun u => u.id == uid) = some user) :
    ∃ db', updateUser db uid .student uid { roomNo := some (some rn) } = .ok db' ∧
      db'.rooms = db.rooms ∧
      (∀ u ∈ db'.users, u.id = uid → u.roomNo = some rn) ∧
      db'.attendance = db.attendance ∧ db'.fees = db.fees := by
  have heq : updateUser db uid .student uid { roomNo := some (some rn) } = .ok { db with
      users := db.users.map (fun u =>
        if u.id == uid then applyUserFields u { roomNo := some (some rn) } .student else u) } := by
    unfold updateUser
    have hcond : (Role.student == Role.student && (uid != uid)) = false := by simp
    rw [hcond, huser]
    rfl
  refine ⟨_, heq, rfl, ?_, rfl, rfl⟩
  intro u hu huid
  obtain ⟨v, hv, hvu⟩ := List.mem_map.mp hu
  by_cases hid : (v.id == uid) = true
  · rw [if_pos hid] at hvu
    exact hvu ▸ rfl
  · rw [if_neg hid] at hvu
    subst hvu
    exact absurd (by simp [huid]) hid

/-- C9 witness: the student writes `room_no = "Z"` (a nonexistent
room) on their own profile; the write succeeds and every room row is
untouched. -/
theorem c9_student_self_update_witness :
    ∃ db', updateUser c9db 2 .student 2 { roomNo := some (some "Z") } = .ok db' ∧
      db'.rooms = c9db.rooms ∧
      (∀ u ∈ db'.users, u.id = 2 → u.roomNo = some "Z") ∧
      db'.attendance = c9db.attendance ∧ db'.fees = c9db.fees :=
  c9_student_self_update c9db 2 "Z" (mkStudentW 2 "s2@h.com" none) (by rfl)

/-- C1: contrary to the spec, the user-update reassign path performs
the move into a full room instead of failing with `Conflict`: with
room "B" already at capacity, the admin update writing `room_no = "B"`
succeeds, moves the student, decrements room "A" and pushes room "B"
to `occupied = 2` above its capacity 1. -/
theorem c1_reassign_into_full_room_applies_move :
    (mkRoomW 2 "B" 1 1).occupied = (mkRoomW 2 "B" 1 1).capacity ∧
    ∃ db', updateUser c1db 1 .admin 2 { roomNo := some (some "B") } = .ok db' ∧
      (∀ u ∈ db'.users, u.id = 2 → u.roomNo = some "B") ∧
      db'.rooms.find? (fun r => r.roomNo == "B") = some (mkRoomW 2 "B" 1 2) ∧
      db'.rooms.find? (fun r => r.roomNo == "A") = some (mkRoomW 1 "A" 2 0) := by
  refine ⟨rfl, _, rfl, ?_, rfl, rfl⟩
  decide

/-- C10: create-user with a truthy `room_no` succeeds with no capacity
and no room-existence condition, incrementing every matching room's
`occupied` unconditionally; concretely, from the reachable state where
room "R" (capacity 1) was filled by one create, a second create into
"R" succeeds and leaves `occupied = 2 = capacity + 1`. -/
theorem c10_create_user_unconditional_increment :
    (∀ (db : DB) (b : CreateBody) (rn : String),
      (b.name == "") = false → (b.email == "") = false → 6 ≤ b.password.length →
      db.users.any (fun u => u.email == b.email) = false →
      b.roomNo = some rn → (rn != "") = true →
      ∃ db', createUser db b = .ok db' ∧
        db'.rooms = db.rooms.map (fun r =>
          if r.roomNo == rn then { r with occupied := r.occupied + 1 } else r) ∧
        db'.users = db.users ++
          [{ id := db.nextUserId, name := b.name, email := b.email,
             password := b.password, role := b.role, roomNo := b.roomNo,
             batch := b.batch, phone := b.phone, photo := none, isActive := true }]) ∧
    (∃ db1 db2, createUser c10db0 c10bodyA = .ok db1 ∧ createUser db1 c10bodyB = .ok db2 ∧
      db2.rooms.find? (fun r => r.roomNo == "R") = some (mkRoomW 1 "R" 1 2) ∧
      (mkRoomW 1 "R" 1 2).capacity = 1) := by
  constructor
  · intro db b rn h1 h2 hp hdup hrn hrnne
    have h3 : decide (b.password.length < 6) = false := by
      simp only [decide_eq_false_iff_not, Nat.not_lt]
      exact hp
    have h4 : jsTruthyS b.roomNo = true := by rw [hrn]; simpa [jsTruthyS] using hrnne
    refine ⟨{ db with
        users := db.users ++
          [{ id := db.nextUserId, name := b.name, email := b.email,
             password := b.password, role := b.role, roomNo := b.roomNo,
             batch := b.batch, phone := b.phone, photo := none, isActive := true }],
        nextUserId := db.nextUserId + 1,
        rooms := db.rooms.map (fun r =>
          if r.roomNo == rn then { r with occupied := r.occupied + 1 } else r) }, ?_, rfl, rfl⟩
    unfold createUser
    rw [h1, h2, h3, hdup]
    rw [show jsTruthyS b.roomNo = true from h4, hrn]
    rfl
  · exact ⟨_, _, rfl, rfl, rfl, rfl⟩

/-- C10 witness: the general part applied at the concrete first
create-user request against the empty state. -/
theorem c10_create_user_witness :
    ∃ db', createUser c10db0 c10bodyA = .ok db' ∧
      db'.rooms = c10db0.rooms.map (fun r =>
        if r.roomNo == "R" then { r with occupied := r.occupied + 1 } else r) ∧
      db'.users = c10db0.users ++
        [{ id := c10db0.nextUserId, name := c10bodyA.name, email := c10bodyA.email,
           password := c10bodyA.password, role := c10bodyA.role, roomNo := c10bodyA.roomNo,
           batch := c10bodyA.batch, phone := c10bodyA.phone, photo := none, isActive := true }] :=
  c10_create_user_unconditional_increment.1 c10db0 c10bodyA "R"
    (by rfl) (by rfl) (by decide) (by rfl) (by rfl) (by rfl)

/-- C4: every successful QR mark records status `late` exactly when
the local time-of-day string strictly exceeds "08:00:00", and
`present` otherwise — so a mark at exactly "08:00:00" or earlier
yields `present`. -/
theorem c4_late_classification (db : DB) (rid : Nat) (rrole : Role) (q : Option QrData)
    (d t : String) (hok : (markAttendance db rid rrole q d t).isOk = true) :
    ∃ db' uid, markAttendance db rid rrole q d t
        = .ok (db', if strLt "08:00:00" t then AttStatus.late else AttStatus.present) ∧
      db'.attendance = db.attendance ++
        [{ userId := uid, date := d,
           status := if strLt "08:00:00" t then AttStatus.late else AttStatus.present,
           checkInTime := some t, checkOutTime := none }] := by
  cases q with
  | none => simp [markAttendance, Except.isOk, Except.toBool] at hok
  | some qd =>
    cases h1 : (jsTruthyN qd.userId && jsTruthyS qd.name && jsTruthyS qd.email) with
    | false => simp [markAttendance, h1, Except.isOk, Except.toBool] at hok
    | true =>
      cases h2 : (rrole == Role.student && (qd.userId.getD 0 != rid)) with
      | true => simp [markAttendance, h1, h2, Except.isOk, Except.toBool] at hok
      | false =>
        cases h3 : db.attendance.any (fun a => a.userId == qd.userId.getD 0 && a.date == d) with
        | true => simp [markAttendance, h1, h2, h3, Except.isOk, Except.toBool] at hok
        | false =>
          refine ⟨{ db with attendance := db.attendance ++
            [{ userId := qd.userId.getD 0, date := d,
               status := if strLt "08:00:00" t then AttStatus.late else AttStatus.present,
               checkInTime := some t, checkOutTime := none }] }, qd.userId.getD 0, ?_, rfl⟩
          simp only [markAttendance, h1, h2, h3, Bool.not_true]
          rfl

/-- C4 witness: a mark at 07:59:59 records `present`, at 08:00:01
records `late`, and at exactly 08:00:00 records `present`. -/
theorem c4_late_classification_witness :
    (∃ db' uid, markAttendance c4db 2 .student (some c4qr) "2025-01-02" "07:59:59"
        = .ok (db', AttStatus.present) ∧
      db'.attendance = c4db.attendance ++
        [{ userId := uid, date := "2025-01-02", status := AttStatus.present,
           checkInTime := some "07:59:59", checkOutTime := none }]) ∧
    (∃ db' uid, markAttendance c4db 2 .student (some c4qr) "2025-01-02" "08:00:01"
        = .ok (db', AttStatus.late) ∧
      db'.attendance = c4db.attendance ++
        [{ userId := uid, date := "2025-01-02", status := AttStatus.late,
           checkInTime := some "08:00:01", checkOutTime := none }]) ∧
    (∃ db' uid, markAttendance c4db 2 .student (some c4qr) "2025-01-02" "08:00:00"
        = .ok (db', AttStatus.present) ∧
      db'.attendance = c4db.attendance ++
        [{ userId := uid, date := "2025-01-02", status := AttStatus.present,
           checkInTime := some "08:00:00", checkOutTime := none }]) := by
  refine ⟨?_, ?_, ?_⟩
  · have h := c4_late_classification c4db 2 .student (some c4qr) "2025-01-02" "07:59:59" (by rfl)
    rw [if_neg (by decide)] at h
    exact h
  · have h := c4_late_classification c4db 2 .student (some c4qr) "2025-01-02" "08:00:01" (by rfl)
    rw [if_pos (by decide)] at h
    exact h
  · have h := c4_late_classification c4db 2 .student (some c4qr) "2025-01-02" "08:00:00" (by rfl)
    rw [if_neg (by decide)] at h
    exact h

/-- Appending a record whose `(userId, date)` key is absent from the
list preserves key distinctness. -/
theorem attKeyDistinct_append (l : List AttendanceRec) (r : AttendanceRec)
    (hl : attKeyDistinct l)
    (hr : l.any (fun a => a.userId == r.userId && a.date == r.date) = false) :
    attKeyDistinct (l ++ [r]) := by
  unfold attKeyDistinct at hl ⊢
  rw [List.pairwise_append]
  refine ⟨hl, List.pairwise_singleton _ _, ?_⟩
  intro a ha b hb
  have hb' : b = r := by simpa using hb
  subst hb'
  intro hcon
  exact List.any_eq_false.mp hr a ha (by simp [hcon.1, hcon.2])

/-- A successful QR mark appends exactly one record, and its
`(userId, date)` key was absent from the prior state (the
"already marked today" check). -/
theorem markAttendance_ok_attendance (db : DB) (rid : Nat) (rrole : Role)
    (q : Option QrData) (d t : String) (db' : DB) (st : AttStatus)
    (h : markAttendance db rid rrole q d t = .ok (db', st)) :
    ∃ r : AttendanceRec, db'.attendance = db.attendance ++ [r] ∧
      db.attendance.any (fun a => a.userId == r.userId && a.date == r.date) = false := by
  cases q with
  | none => simp [markAttendance] at h
  | some qd =>
    cases h1 : (jsTruthyN qd.userId && jsTruthyS qd.name && jsTruthyS qd.email) with
    | false => simp [markAttendance, h1] at h
    | true =>
      cases h2 : (rrole == Role.student && (qd.userId.getD 0 != rid)) with
      | true => simp [markAttendance, h1, h2] at h
      | false =>
        cases h3 : db.attendance.any (fun a => a.userId == qd.userId.getD 0 && a.date == d) with
        | true => simp [markAttendance, h1, h2, h3] at h
        | false =>
          simp only [markAttendance, h1, h2, h3, Bool.not_true, Bool.false_eq_true,
            if_false, Except.ok.injEq, Prod.mk.injEq] at h
          obtain ⟨hdb, _hst⟩ := h
          exact ⟨_, by rw [← hdb], h3⟩

/-- A successful manual mark appends exactly one record, and its
`(userId, date)` key was absent from the prior state. -/
theorem markManual_ok_attendance (db : DB) (rrole : Role) (uid : Nat) (d : String)
    (st : AttStatus) (ci co : Option String) (db' : DB)
    (h : markManual db rrole uid d st ci co = .ok db') :
    ∃ r : AttendanceRec, db'.attendance = db.attendance ++ [r] ∧
      db.attendance.any (fun a => a.userId == r.userId && a.date == r.date) = false := by
  cases h1 : (rrole != Role.admin) with
  | true => simp [markManual, h1] at h
  | false =>
    cases h2 : db.attendance.any (fun a => a.userId == uid && a.date == d) with
    | true => simp [markManual, h1, h2] at h
    | false =>
      simp only [markManual, h1, h2, Bool.false_eq_true, if_false, Except.ok.injEq] at h
      exact ⟨_, by rw [← h], h2⟩

/-- Handling one marking request preserves key distinctness. -/
theorem applyAttOp_keyDistinct (db : DB) (op : AttOp)
    (h : attKeyDistinct db.attendance) : attKeyDistinct (applyAttOp db op).attendance := by
  cases op with
  | qr rid rrole q d t =>
    cases hm : markAttendance db rid rrole q d t with
    | error e =>
      simp only [applyAttOp, hm]
      exact h
    | ok p =>
      obtain ⟨db', st⟩ := p
      obtain ⟨r, hshape, hany⟩ := markAttendance_ok_attendance db rid rrole q d t db' st hm
      simp only [applyAttOp, hm]
      rw [hshape]
      exact attKeyDistinct_append _ _ h hany
  | manual rrole uid d st ci co =>
    cases hm : markManual db rrole uid d st ci co with
    | error e =>
      simp only [applyAttOp, hm]
      exact h
    | ok db' =>
      obtain ⟨r, hshape, hany⟩ := markManual_ok_attendance db rrole uid d st ci co db' hm
      simp only [applyAttOp, hm]
      rw [hshape]
      exact attKeyDistinct_append _ _ h hany

/-- Every sequential execution of marking requests preserves key
distinctness. -/
theorem runAttOps_keyDistinct (ops : List AttOp) (db : DB)
    (h : attKeyDistinct db.attendance) : attKeyDistinct (runAttOps db ops).attendance := by
  induction ops generalizing db with
  | nil => exact h
  | cons op rest ih => exact ih _ (applyAttOp_keyDistinct db op h)

/-- C3: both marking paths fail with `Conflict` (inserting nothing)
when a record for the `(userId, date)` pair already exists, and every
sequential execution of marking requests preserves the at-most-one-
record-per-user-per-day invariant. -/
theorem c3_attendance_one_per_day (db : DB) :
    (∀ (rid : Nat) (rrole : Role) (qd : QrData) (d t : String),
      (jsTruthyN qd.userId && jsTruthyS qd.name && jsTruthyS qd.email) = true →
      (rrole == Role.student && (qd.userId.getD 0 != rid)) = false →
      db.attendance.any (fun a => a.userId == qd.userId.getD 0 && a.date == d) = true →
      markAttendance db rid rrole (some qd) d t = .error .conflict) ∧
    (∀ (uid : Nat) (d : String) (st : AttStatus) (ci co : Option String),
      db.attendance.any (fun a => a.userId == uid && a.date == d) = true →
      markManual db .admin uid d st ci co = .error .conflict) ∧
    (∀ ops : List AttOp, attKeyDistinct db.attendance →
      attKeyDistinct (runAttOps db ops).attendance) := by
  refine ⟨?_, ?_, ?_⟩
  · intro rid rrole qd d t h1 h2 h3
    simp only [markAttendance, h1, h2, h3, Bool.not_true]
    rfl
  · intro uid d st ci co hex
    simp only [markManual, hex]
    rfl
  · intro ops h
    exact runAttOps_keyDistinct ops db h

/-- C3 witness: both duplicate marks are Conflicts, and the concrete
sequential execution keeps the per-day key distinct. -/
theorem c3_attendance_one_per_day_witness :
    markAttendance c3db 2 .student (some c3qr) "2025-01-02" "08:30:00" = .error .conflict ∧
    markManual c3db .admin 2 "2025-01-02" .late none none = .error .conflict ∧
    attKeyDistinct (runAttOps c3db c3ops).attendance := by
  refine ⟨?_, ?_, ?_⟩
  · exact (c3_attendance_one_per_day c3db).1 2 .student c3qr "2025-01-02" "08:30:00"
      (by rfl) (by rfl) (by rfl)
  · exact (c3_attendance_one_per_day c3db).2.1 2 "2025-01-02" .late none none (by rfl)
  · exact (c3_attendance_one_per_day c3db).2.2 c3ops (by decide)

/-- C6: `markPaid` is `NotFound` when no fee row has the id, a
`Conflict` exactly when the fee is already `paid` (changing nothing —
an error response writes nothing), and on every pending or overdue fee
it succeeds, setting status `paid` with `paid_date` defaulting to the
current date when not supplied. -/
theorem c6_mark_paid (db : DB) (feeId : Nat) (pd rn : Option String) (today : String) :
    (db.fees.find? (fun f => f.id == feeId) = none →
      markPaid db feeId pd rn today = .error .notFound) ∧
    (∀ fee : Fee, db.fees.find? (fun f => f.id == feeId) = some fee →
      (fee.status = .paid → markPaid db feeId pd rn today = .error .conflict) ∧
      (fee.status ≠ .paid →
        ∃ db', markPaid db feeId pd rn today = .ok db' ∧
          db'.fees.find? (fun f => f.id == feeId)
            = some { fee with status := FeeStatus.paid,
                              paidDate := some (if jsTruthyS pd then pd.getD "" else today),
                              receiptNo := rn } ∧
          (pd = none →
            db'.fees.find? (fun f => f.id == feeId)
              = some { fee with status := FeeStatus.paid, paidDate := some today,
                                receiptNo := rn }))) := by
  constructor
  · intro hnone
    unfold markPaid
    rw [hnone]
  · intro fee hfee
    have hfeeid : fee.id = feeId := by
      have := List.find?_some hfee
      simpa using this
    constructor
    · intro hpaid
      unfold markPaid
      rw [hfee]
      simp [hpaid]
    · intro hnp
      have hnp' : (fee.status == FeeStatus.paid) = false := by
        simpa using hnp
      have heq : markPaid db feeId pd rn today = .ok { db with fees := db.fees.map (fun f =>
          if f.id == feeId then
            { f with status := FeeStatus.paid,
                     paidDate := some (if jsTruthyS pd then pd.getD "" else today),
                     receiptNo := rn }
          else f) } := by
        unfold markPaid
        rw [hfee]
        simp [hnp']
      have hfind : ({ db with fees := db.fees.map (fun f =>
          if f.id == feeId then
            { f with status := FeeStatus.paid,
                     paidDate := some (if jsTruthyS pd then pd.getD "" else today),
                     receiptNo := rn }
          else f) } : DB).fees.find? (fun f => f.id == feeId)
          = some { fee with status := FeeStatus.paid,
                            paidDate := some (if jsTruthyS pd then pd.getD "" else today),
                            receiptNo := rn } := by
        rw [show ({ db with fees := db.fees.map (fun f =>
            if f.id == feeId then
              { f with status := FeeStatus.paid,
                       paidDate := some (if jsTruthyS pd then pd.getD "" else today),
                       receiptNo := rn }
            else f) } : DB).fees = db.fees.map (fun f =>
            if f.id == feeId then
              { f with status := FeeStatus.paid,
                       paidDate := some (if jsTruthyS pd then pd.getD "" else today),
                       receiptNo := rn }
            else f) from rfl]
        rw [find?_map_stable _ _ (fun f => by by_cases h : (f.id == feeId) = true <;> simp [h]),
          hfee]
        simp [hfeeid]
      refine ⟨_, heq, hfind, ?_⟩
      intro hpd
      subst hpd
      exact hfind

/-- C6 witness: paying a missing fee is `NotFound`; paying the paid
fee is a `Conflict`; paying the overdue fee succeeds with `paid_date`
defaulted to the current date. -/
theorem c6_mark_paid_witness :
    markPaid c6db 9 none none "2025-02-01" = .error .notFound ∧
    markPaid c6db 2 none none "2025-02-01" = .error .conflict ∧
    (∃ db', markPaid c6db 1 none none "2025-02-01" = .ok db' ∧
      db'.fees.find? (fun f => f.id == 1)
        = some { mkFeeW 1 .overdue "2025-01-01" with status := FeeStatus.paid,
                                                     paidDate := some "2025-02-01",
                                                     receiptNo := none }) := by
  refine ⟨?_, ?_, ?_⟩
  · exact (c6_mark_paid c6db 9 none none "2025-02-01").1 (by rfl)
  · exact ((c6_mark_paid c6db 2 none none "2025-02-01").2
      (mkFeeW 2 .paid "2025-01-01") (by rfl)).1 rfl
  · obtain ⟨db', h1, _h2, h3⟩ := ((c6_mark_paid c6db 1 none none "2025-02-01").2
      (mkFeeW 1 .overdue "2025-01-01") (by rfl)).2 (by decide)
    exact ⟨db', h1, h3 rfl⟩

/-- C5: the overdue sweep transitions exactly the pending fees whose
due date is strictly before today to `overdue`, leaves every other fee
(paid, already overdue, or not yet due) unchanged, and is idempotent. -/
theorem c5_sweep_overdue (db : DB) (today : String) :
    List.Forall₂ (fun f f' =>
      (f.status = FeeStatus.pending ∧ strLt f.dueDate today = true →
        f' = { f with status := FeeStatus.overdue }) ∧
      (¬(f.status = FeeStatus.pending ∧ strLt f.dueDate today = true) → f' = f))
      db.fees (sweepOverdue db today).fees ∧
    sweepOverdue (sweepOverdue db today) today = sweepOverdue db today := by
  have hg : ∀ f, sweepFee today (sweepFee today f) = sweepFee today f := by
    intro f
    by_cases hc : (f.status == FeeStatus.pending && strLt f.dueDate today) = true
    · have h1 : sweepFee today f = { f with status := FeeStatus.overdue } := by
        unfold sweepFee
        rw [if_pos hc]
      rw [h1]
      unfold sweepFee
      rw [if_neg (by simp)]
    · have h1 : sweepFee today f = f := by
        unfold sweepFee
        rw [if_neg hc]
      rw [h1]
      exact h1
  constructor
  · show List.Forall₂ _ db.fees (db.fees.map (sweepFee today))
    rw [List.forall₂_map_right_iff, List.forall₂_same]
    intro f _
    constructor
    · intro hc
      unfold sweepFee
      rw [if_pos (by simp [hc.1, hc.2])]
    · intro hn
      unfold sweepFee
      rw [if_neg (by simpa [Bool.and_eq_true] using hn)]
  · have hmap : (db.fees.map (sweepFee today)).map (sweepFee today)
        = db.fees.map (sweepFee today) := by
      rw [List.map_map]
      exact List.map_congr_left (fun f _ => hg f)
    unfold sweepOverdue
    dsimp only
    rw [hmap]

/-- C8: the stats operation returns `attendancePercentage` equal to
`(present + late) / total * 100` rounded to two decimals, and the
literal 0 — with no division performed — when the user has no records
in range. -/
theorem c8_attendance_stats (db : DB) (uid : Nat) (s e : Option String) :
    ((attendanceStats db uid s e).totalDays = 0 →
      (attendanceStats db uid s e).attendancePercentage = 0) ∧
    (0 < (attendanceStats db uid s e).totalDays →
      (attendanceStats db uid s e).attendancePercentage =
        roundTo2 ((((attendanceStats db uid s e).presentDays : ℚ)
            + ((attendanceStats db uid s e).lateDays : ℚ))
          / ((attendanceStats db uid s e).totalDays : ℚ) * 100)) := by
  constructor
  · intro h0
    unfold attendanceStats at h0 ⊢
    dsimp only at h0 ⊢
    rw [if_neg (by omega)]
  · intro hpos
    unfold attendanceStats at hpos ⊢
    dsimp only at hpos ⊢
    rw [if_pos hpos]

/-- C8 witness: 8 present and 2 late out of 10 yield exactly 100; a
user with no records yields 0. -/
theorem c8_attendance_stats_witness :
    (attendanceStats c8db 2 none none).totalDays = 10 ∧
    (attendanceStats c8db 2 none none).presentDays = 8 ∧
    (attendanceStats c8db 2 none none).lateDays = 2 ∧
    (attendanceStats c8db 2 none none).attendancePercentage = 100 ∧
    (attendanceStats c8db 99 none none).totalDays = 0 ∧
    (attendanceStats c8db 99 none none).attendancePercentage = 0 := by
  refine ⟨rfl, rfl, rfl, ?_, rfl, ?_⟩
  · have h := (c8_attendance_stats c8db 2 none none).2 (by decide)
    rw [show (attendanceStats c8db 2 none none).presentDays = 8 from rfl,
      show (attendanceStats c8db 2 none none).lateDays = 2 from rfl,
      show (attendanceStats c8db 2 none none).totalDays = 10 from rfl] at h
    rw [h]
    norm_num [roundTo2, Rat.floor_def']
  · exact (c8_attendance_stats c8db 99 none none).1 rfl

end Hostel
